import Mathlib

/-!
Verification of bench/workgen/validate_mirror_tables.py.

The script is embedded shallowly: every Python string operation it uses is
modelled by a structurally recursive Lean function over the underlying
character list, fallible code returns an explicit result type, and the
side effects of the script (sessions, cursors, the connection, printing,
comparisons and the process exit) are recorded as an event trace produced
by a pure interpretation of main. The storage engine and the comparison
utility are external collaborators, so their behaviour is an input
(a lookup function, an iteration script, an exit-code function).
-/

/-- Result of running a piece of Python code: either a normal value or a
propagating exception, identified by its class name. -/
inductive PyResult (α : Type) where
  | ok (a : α)
  | exn (e : String)
deriving DecidableEq

/-- Outcome of a keyed metadata-cursor lookup `metadata_cursor[filename]`:
either the configuration string of the record, or a raised exception
(an instance of Exception) identified by its class name. -/
inductive LookupResult where
  | found (v : String)
  | raised (e : String)
deriving DecidableEq

/-- The double-quote character, written by code point to keep it out of
string literals. -/
def dquote : Char := Char.ofNat 34

/-- The single-quote character, used when rendering Python reprs. -/
def squoteChar : Char := Char.ofNat 39

/-- One-character string holding a single quote. -/
def sglq : String := String.mk [squoteChar]

/-- Split a character list on a separator character, Python
`str.split(sep)` with a one-character separator: the empty input gives one
empty field, and separators at the ends give empty fields. -/
def splitCh (sep : Char) : List Char → List (List Char)
  | [] => [[]]
  | c :: cs =>
    let r := splitCh sep cs
    if c = sep then [] :: r
    else
      match r with
      | [] => [[c]]
      | h :: t => (c :: h) :: t

/-- Strip whitespace from both ends of a character list, Python
`str.strip()` (restricted to ASCII whitespace). -/
def trimChars (l : List Char) : List Char :=
  ((l.dropWhile Char.isWhitespace).reverse.dropWhile Char.isWhitespace).reverse

/-- Python `s.split(sep)` for a one-character separator, on strings. -/
def pySplit (s : String) (sep : Char) : List String :=
  (splitCh sep s.data).map String.mk

/-- Python `s.strip()`. -/
def pyStrip (s : String) : String := String.mk (trimChars s.data)

/-- Python `s.startswith(p)`. -/
def pyStartsWith (s p : String) : Bool := p.data.isPrefixOf s.data

/-- Python slice `s[n:]`. -/
def pyDrop (s : String) (n : Nat) : String := String.mk (s.data.drop n)

/-- Python slice `s[:-n]` (for n greater than the length the result is
empty, as in Python). -/
def pyDropRight (s : String) (n : Nat) : String :=
  String.mk (s.data.take (s.data.length - n))

/-- The literal character pattern the regex starts with:
the text app_metadata= followed by a double quote. -/
def appMetaPat : List Char := "app_metadata=".data ++ [dquote]

/-- Greedy capture of a regex group matching zero or more non-quote
characters followed by a closing quote: succeeds only when a closing
quote exists, returning the characters before it. -/
def takeCapture (l : List Char) : Option (List Char) :=
  if dquote ∈ l then some (l.takeWhile (fun c => c ≠ dquote)) else none

/-- Leftmost match of the regex app_metadata="([^"]*)" over a character
list, returning the captured group, as re.findall would produce as the
first element of its result list. -/
def findAppMeta : List Char → Option (List Char)
  | [] => none
  | c :: cs =>
    if appMetaPat.isPrefixOf (c :: cs) then
      match takeCapture ((c :: cs).drop appMetaPat.length) with
      | some cap => some cap
      | none => findAppMeta cs
    else findAppMeta cs

/-- The first captured app_metadata quoted substring of a configuration
string, if the pattern matches anywhere. -/
def extractAppMetadata (s : String) : Option String :=
  (findAppMeta s.data).map String.mk

/-- Python tuple unpacking `for a, b in (element.split(chr(61)))` for one
element: succeeds exactly when splitting on the equals sign yields two
fields, which are then stripped. Any other shape raises ValueError in the
source. -/
def splitKV (element : String) : Option (String × String) :=
  match pySplit element '=' with
  | [a, b] => some (pyStrip a, pyStrip b)
  | _ => none

/-- The dict comprehension of get_mirror_file applied to the list of
comma-separated elements: none models the ValueError raised by tuple
unpacking when any element does not split into exactly two fields. -/
def parseDictList : List String → Option (List (String × String))
  | [] => some []
  | e :: es =>
    match splitKV e, parseDictList es with
    | some kv, some d => some (kv :: d)
    | _, _ => none

/-- Python dict lookup semantics for an association list built left to
right: a later binding of the same key overwrites an earlier one, so the
last binding wins. -/
def dictGet (d : List (String × String)) (k : String) : Option String :=
  match d with
  | [] => none
  | p :: rest =>
    match dictGet rest k with
    | some v => some v
    | none => if p.1 = k then some p.2 else none

/-- Embedding of get_mirror_file. The metadata cursor is an input
function from keys to lookup outcomes. A raised KeyError returns no
mirror; any other raised Exception is swallowed by the except block and
the following reference to the never-assigned local metadata raises
UnboundLocalError. A captured app_metadata substring is split on commas,
each element unpacked on the equals sign (ValueError when an element does
not have exactly one equals sign), and when the parsed dict maps
workgen_dynamic_table to true and has a workgen_table_mirror entry the
mirror name is the field after the first colon of that entry
(IndexError when the entry has no colon). -/
def get_mirror_file (metadata_cursor : String → LookupResult) (filename : String) :
    PyResult (Option String) :=
  match metadata_cursor filename with
  | LookupResult.raised e =>
    if e = "KeyError" then PyResult.ok none else PyResult.exn "UnboundLocalError"
  | LookupResult.found metadata =>
    match extractAppMetadata metadata with
    | none => PyResult.ok none
    | some captured =>
      match parseDictList (pySplit captured ',') with
      | none => PyResult.exn "ValueError"
      | some app_metadata =>
        if dictGet app_metadata "workgen_dynamic_table" = some "true" ∧
            dictGet app_metadata "workgen_table_mirror" ≠ none then
          match dictGet app_metadata "workgen_table_mirror" with
          | none => PyResult.ok none
          | some mirror =>
            match (pySplit mirror ':').get? 1 with
            | some m => PyResult.ok (some m)
            | none => PyResult.exn "IndexError"
        else PyResult.ok none

/-- External side effects of the script, in program order. -/
inductive Ev where
  | openConn (dir : String)
  | closeConn
  | openSession
  | openCursor
  | closeCursor
  | closeSession
  | compare (item : String × String)
  | print (line : String)
deriving DecidableEq

/-- One step the metadata cursor iteration can take in the for loop of
get_wiredtiger_db_files: yield a key-value record, or raise. Normal
exhaustion is the end of the step list. -/
inductive IterStep where
  | yield (k v : String)
  | raise (e : String)
deriving DecidableEq

/-- Behaviour of the external engine during the catalog scan: whether the
search_near positioning raises, and the records the subsequent iteration
yields. -/
structure ScanBehavior where
  searchNearExn : Option String
  steps : List IterStep

/-- The for loop of get_wiredtiger_db_files: stop at the first key not
starting with file:, skip keys starting with file:WiredTiger, and for the
rest record the key with the prefix and the three-character extension
stripped. A raising step propagates. -/
def scanLoop : List IterStep → List String → PyResult (List String)
  | [], acc => PyResult.ok acc
  | IterStep.raise e :: _, _ => PyResult.exn e
  | IterStep.yield k _ :: rest, acc =>
    if pyStartsWith k "file:" = false then PyResult.ok acc
    else if pyStartsWith k "file:WiredTiger" then scanLoop rest acc
    else scanLoop rest (acc ++ [pyDropRight (pyDrop k 5) 3])

/-- Embedding of get_wiredtiger_db_files together with its event trace.
A session and a cursor are opened first; they are closed only on the
normal return path, because the source has no try or finally around the
positioning and the iteration, so an exception propagates with both still
open. -/
def get_wiredtiger_db_files (sb : ScanBehavior) : List Ev × PyResult (List String) :=
  match sb.searchNearExn with
  | some e => ([Ev.openSession, Ev.openCursor], PyResult.exn e)
  | none =>
    match scanLoop sb.steps [] with
    | PyResult.ok files =>
      ([Ev.openSession, Ev.openCursor, Ev.closeCursor, Ev.closeSession], PyResult.ok files)
    | PyResult.exn e => ([Ev.openSession, Ev.openCursor], PyResult.exn e)

/-- Python set(db_files): deduplicate, keeping one copy of each name. -/
def dedupStr : List String → List String
  | [] => []
  | x :: xs =>
    let r := dedupStr xs
    if x ∈ r then r else x :: r

/-- Python set.remove on a duplicate-free list: drop the element. -/
def removeStr (x : String) : List String → List String
  | [] => []
  | y :: ys => if y = x then ys else y :: removeStr x ys

/-- The loop of get_mirrors: walk the file list in order, skipping names
already consumed, resolving each remaining name through get_mirror_file
on the key table:name, and emitting a pair of fully qualified uris when
the resolved mirror is truthy (Python: not None and not empty) and still
unconsumed. An exception from get_mirror_file propagates. -/
def get_mirrors_go (lookup : String → LookupResult) (db_dir : String)
    (fs remaining : List String) : PyResult (List (String × String)) :=
  match fs with
  | [] => PyResult.ok []
  | filename :: rest =>
    if filename ∈ remaining then
      match get_mirror_file lookup ("table:" ++ filename) with
      | PyResult.exn e => PyResult.exn e
      | PyResult.ok none => get_mirrors_go lookup db_dir rest (removeStr filename remaining)
      | PyResult.ok (some mirror_filename) =>
        if mirror_filename ≠ "" ∧ mirror_filename ∈ removeStr filename remaining then
          match get_mirrors_go lookup db_dir rest
              (removeStr mirror_filename (removeStr filename remaining)) with
          | PyResult.ok ms =>
            PyResult.ok ((db_dir ++ "/table:" ++ filename,
                          db_dir ++ "/table:" ++ mirror_filename) :: ms)
          | PyResult.exn e => PyResult.exn e
        else get_mirrors_go lookup db_dir rest (removeStr filename remaining)
    else get_mirrors_go lookup db_dir rest remaining

/-- Embedding of get_mirrors together with its event trace: one session
and one metadata cursor are opened, the loop runs over the file list with
the remaining set seeded from all files, and the cursor and session are
closed only when the loop completes without an exception. -/
def get_mirrors (lookup : String → LookupResult) (db_dir : String)
    (db_files : List String) : List Ev × PyResult (List (String × String)) :=
  match get_mirrors_go lookup db_dir db_files (dedupStr db_files) with
  | PyResult.ok ms =>
    ([Ev.openSession, Ev.openCursor, Ev.closeCursor, Ev.closeSession], PyResult.ok ms)
  | PyResult.exn e => ([Ev.openSession, Ev.openCursor], PyResult.exn e)

/-- First line printed by usage_exit. -/
def usageLine1 : String := "Usage: python3 validate_mirror_tables database_dir"

/-- Second line printed by usage_exit. -/
def usageLine2 : String :=
  "  database_dir is a POSIX pathname to a WiredTiger home directory"

/-- The per-pair mismatch line. The f-string renders the two-element list
with Python repr quoting, and renders the local variable stdout, which is
still None at that point: the assignment from wiredtiger_compare_uri never
completed because the utility raised SystemExit, and the text the utility
printed went to os.devnull under redirect_stdout. -/
def mismatchLine (item : String × String) : String :=
  "Mirror mismatch [" ++ sglq ++ item.1 ++ sglq ++ ", " ++ sglq ++ item.2 ++ sglq ++
    "]: None"

/-- The summary line printed when no pair failed. -/
def successLine (n : Nat) (db_dir : String) : String :=
  "Successfully validated " ++ toString n ++
    " table mirrors in database directory " ++ sglq ++ db_dir ++ sglq ++ "."

/-- The summary line printed when some pairs failed. -/
def failLine (f n : Nat) (db_dir : String) : String :=
  "Mirrored table validation failed for " ++ toString f ++ " of " ++ toString n ++
    " table mirrors in database directory " ++ sglq ++ db_dir ++ sglq ++ "."

/-- The validation loop of main: each pair produces a compare event; a
SystemExit with nonzero code from the comparison utility adds a mismatch
line and bumps the failure count; a zero code or a normal return adds
nothing. The first component is the event list, the second the failure
count. -/
def validate (compareExit : String × String → Option Nat) :
    List (String × String) → List Ev × Nat
  | [] => ([], 0)
  | item :: rest =>
    let tail := validate compareExit rest
    match compareExit item with
    | some code =>
      if code ≠ 0 then
        (Ev.compare item :: Ev.print (mismatchLine item) :: tail.1, tail.2 + 1)
      else (Ev.compare item :: tail.1, tail.2)
    | none => (Ev.compare item :: tail.1, tail.2)

/-- Behaviour of both external collaborators for one run: the catalog
scan, the keyed metadata lookups, the exit code wiredtiger_compare_uri
signals per pair (none for a normal return), and the diagnostic text the
utility writes to its output channel, which the script redirects to
os.devnull. -/
structure DbBehavior where
  scan : ScanBehavior
  lookup : String → LookupResult
  compareExit : String × String → Option Nat
  compareDiag : String × String → String

/-- How the whole process ends: a sys.exit with a status, or an
uncaught exception. -/
inductive Outcome where
  | exited (code : Nat)
  | raised (e : String)
deriving DecidableEq

/-- The two usage lines and the failure exit of usage_exit. -/
def usage_exit : List Ev × Outcome :=
  ([Ev.print usageLine1, Ev.print usageLine2], Outcome.exited 1)

/-- Embedding of main: a wrong argument count prints usage and exits 1
before any connection is opened; otherwise the connection is opened, the
catalog scanned, the mirror pairs collected, the connection closed, every
pair compared, and the summary printed; the exit status is 1 exactly when
the failure count is positive. An exception from scanning or collection
propagates with the connection left open. -/
def pymain (b : DbBehavior) (args : List String) : List Ev × Outcome :=
  match args with
  | [db_dir] =>
    match get_wiredtiger_db_files b.scan with
    | (evs1, PyResult.exn e) => (Ev.openConn db_dir :: evs1, Outcome.raised e)
    | (evs1, PyResult.ok db_files) =>
      match get_mirrors b.lookup db_dir db_files with
      | (evs2, PyResult.exn e) =>
        (Ev.openConn db_dir :: (evs1 ++ evs2), Outcome.raised e)
      | (evs2, PyResult.ok mirrors) =>
        let v := validate b.compareExit mirrors
        let line :=
          if v.2 = 0 then successLine mirrors.length db_dir
          else failLine v.2 mirrors.length db_dir
        (Ev.openConn db_dir ::
           (evs1 ++ evs2 ++ [Ev.closeConn] ++ v.1 ++ [Ev.print line]),
         Outcome.exited (if v.2 > 0 then 1 else 0))
  | _ => usage_exit

/-- Metadata string of a base table s whose mirror is t. -/
def metaS : String :=
  String.mk ("app_metadata=".data ++ [dquote] ++
    "workgen_dynamic_table=true,workgen_table_mirror=table:t".data ++ [dquote])

/-- Sample metadata cursor: s is a dynamic table mirrored by t, while the
metadata of t itself has no app_metadata field at all. -/
def sampleLookup : String → LookupResult := fun fn =>
  if fn = "table:s" then LookupResult.found metaS
  else if fn = "table:t" then LookupResult.found "id=5"
  else LookupResult.raised "KeyError"

/-- Sample catalog scan yielding the two user files s.wt and t.wt. -/
def sampleScan : ScanBehavior :=
  ⟨none, [IterStep.yield "file:s.wt" "", IterStep.yield "file:t.wt" ""]⟩

/-- Sample run: two tables forming one pair, comparisons all match. -/
def sampleB : DbBehavior :=
  ⟨sampleScan, sampleLookup, fun _ => none, fun _ => ""⟩

/-- All the table names occurring in a pair list, each pair contributing
its base side then its mirror side. -/
def pairNames : List (String × String) → List String
  | [] => []
  | p :: ps => p.1 :: p.2 :: pairNames ps

/-- Whether an event opens the top-level connection. -/
def isOpenConnEv : Ev → Bool
  | Ev.openConn _ => true
  | _ => false

/-- Whether an event closes the top-level connection. -/
def isCloseConnEv : Ev → Bool
  | Ev.closeConn => true
  | _ => false

/-- Whether an event belongs to catalog scanning or pair collection:
opening or closing a session or a cursor. -/
def isScanEv : Ev → Bool
  | Ev.openSession => true
  | Ev.openCursor => true
  | Ev.closeCursor => true
  | Ev.closeSession => true
  | _ => false

/-- Whether an event is a per-pair comparison. -/
def isCompareEv : Ev → Bool
  | Ev.compare _ => true
  | _ => false

/-- Whether an event opens a session. -/
def isOpenSessionEv : Ev → Bool
  | Ev.openSession => true
  | _ => false

/-- Whether an event opens a cursor. -/
def isOpenCursorEv : Ev → Bool
  | Ev.openCursor => true
  | _ => false

/-- Count the events satisfying a predicate. -/
def countP (p : Ev → Bool) : List Ev → Nat
  | [] => 0
  | e :: rest => (if p e then 1 else 0) + countP p rest

/-- The events strictly after the first connection close. -/
def afterCloseConn : List Ev → List Ev
  | [] => []
  | Ev.closeConn :: rest => rest
  | _ :: rest => afterCloseConn rest

/-- The events strictly before the first connection close. -/
def beforeCloseConn : List Ev → List Ev
  | [] => []
  | Ev.closeConn :: _ => []
  | e :: rest => e :: beforeCloseConn rest

/-- Cursor lookup returning metadata whose quoted app_metadata substring
is the single element foo, which has no equals sign. -/
def badMetaLookup : String → LookupResult := fun _ =>
  LookupResult.found (String.mk ("app_metadata=".data ++ [dquote] ++
    "foo".data ++ [dquote]))

/-- Metadata string of a base table orders whose configured mirror is
orders_mirror. -/
def metaOrders : String :=
  String.mk ("app_metadata=".data ++ [dquote] ++
    "workgen_dynamic_table=true,workgen_table_mirror=table:orders_mirror".data ++
    [dquote])

/-- Cursor in which only orders exists; its configured mirror
orders_mirror has been dropped from the catalog. -/
def orphanLookup : String → LookupResult := fun fn =>
  if fn = "table:orders" then LookupResult.found metaOrders
  else LookupResult.raised "KeyError"

/-- Run whose catalog holds a single base table with a dropped mirror. -/
def orphanB : DbBehavior :=
  ⟨⟨none, [IterStep.yield "file:orders.wt" ""]⟩, orphanLookup,
    fun _ => none, fun _ => ""⟩

/-- Catalog scan whose iteration raises on its first step. -/
def raisingScan : ScanBehavior := ⟨none, [IterStep.raise "WiredTigerError"]⟩

/-- Run with one mirror pair whose comparison raises SystemExit(1) after
writing a diagnostic that the script discards. -/
def diagB (d : String × String → String) : DbBehavior :=
  ⟨sampleScan, sampleLookup, fun _ => some 1, d⟩

lemma mem_pairNames {x : String} :
    ∀ {ms : List (String × String)},
      x ∈ pairNames ms ↔ ∃ p ∈ ms, x = p.1 ∨ x = p.2 := by
  intro ms
  induction ms with
  | nil => simp [pairNames]
  | cons p ps ih =>
    simp only [pairNames, List.mem_cons, ih]
    constructor
    · rintro (h | h | ⟨q, hq, hx⟩)
      · exact ⟨p, Or.inl rfl, Or.inl h⟩
      · exact ⟨p, Or.inl rfl, Or.inr h⟩
      · exact ⟨q, Or.inr hq, hx⟩
    · rintro ⟨q, hq | hq, hx⟩
      · subst hq
        rcases hx with hx | hx
        · exact Or.inl hx
        · exact Or.inr (Or.inl hx)
      · exact Or.inr (Or.inr ⟨q, hq, hx⟩)

lemma mem_of_mem_removeStr {a x : String} :
    ∀ {l : List String}, a ∈ removeStr x l → a ∈ l := by
  intro l
  induction l with
  | nil => simp [removeStr]
  | cons y ys ih =>
    simp only [removeStr]
    split
    · intro h; exact List.mem_cons_of_mem _ h
    · intro h
      rcases List.mem_cons.mp h with h | h
      · exact h ▸ List.mem_cons_self _ _
      · exact List.mem_cons_of_mem _ (ih h)

lemma nodup_removeStr {x : String} :
    ∀ {l : List String}, l.Nodup → (removeStr x l).Nodup := by
  intro l
  induction l with
  | nil => simp [removeStr]
  | cons y ys ih =>
    intro h
    rcases List.nodup_cons.mp h with ⟨hy, hys⟩
    simp only [removeStr]
    split
    · exact hys
    · exact List.nodup_cons.mpr ⟨fun hc => hy (mem_of_mem_removeStr hc), ih hys⟩

lemma mem_removeStr_iff {a x : String} :
    ∀ {l : List String}, l.Nodup → (a ∈ removeStr x l ↔ a ∈ l ∧ a ≠ x) := by
  intro l
  induction l with
  | nil => simp [removeStr]
  | cons y ys ih =>
    intro h
    rcases List.nodup_cons.mp h with ⟨hy, hys⟩
    simp only [removeStr]
    split
    · rename_i hyx
      subst hyx
      constructor
      · intro ha
        exact ⟨List.mem_cons_of_mem _ ha, fun hax => hy (hax ▸ ha)⟩
      · rintro ⟨ha, hax⟩
        rcases List.mem_cons.mp ha with h | h
        · exact absurd h hax
        · exact h
    · rename_i hyx
      constructor
      · intro ha
        rcases List.mem_cons.mp ha with h | h
        · subst h
          exact ⟨List.mem_cons_self _ _, fun hc => hyx hc⟩
        · rcases (ih hys).mp h with ⟨h1, h2⟩
          exact ⟨List.mem_cons_of_mem _ h1, h2⟩
      · rintro ⟨ha, hax⟩
        rcases List.mem_cons.mp ha with h | h
        · exact h ▸ List.mem_cons_self _ _
        · exact List.mem_cons_of_mem _ ((ih hys).mpr ⟨h, hax⟩)

lemma mem_dedupStr {l : List String} :
    ∀ {a : String}, a ∈ dedupStr l ↔ a ∈ l := by
  induction l with
  | nil => intro a; simp [dedupStr]
  | cons x xs ih =>
    intro a
    simp only [dedupStr]
    split
    · rename_i hx
      simp only [List.mem_cons, ih]
      exact ⟨fun h => Or.inr h, fun h => h.elim (fun he => he ▸ ih.mp hx) id⟩
    · simp [List.mem_cons, ih]

lemma nodup_dedupStr : ∀ {l : List String}, (dedupStr l).Nodup := by
  intro l
  induction l with
  | nil => simp [dedupStr]
  | cons x xs ih =>
    simp only [dedupStr]
    split
    · exact ih
    · rename_i hx
      exact List.nodup_cons.mpr ⟨hx, ih⟩

lemma string_append_cancel_left {p a b : String} (h : p ++ a = p ++ b) : a = b := by
  rcases p with ⟨pd⟩
  rcases a with ⟨ad⟩
  rcases b with ⟨bd⟩
  have hd : pd ++ ad = pd ++ bd := congrArg String.data h
  exact congrArg String.mk (List.append_cancel_left hd)

lemma uri_inj {db_dir a b : String}
    (h : db_dir ++ "/table:" ++ a = db_dir ++ "/table:" ++ b) : a = b :=
  string_append_cancel_left h

/-- Soundness of the collector loop: a successful run yields a pair list
whose flattened name list has no duplicates, and every pair comes from a
base name still in the remaining set whose resolver call produced exactly
the mirror side, the two sides distinct. -/
lemma go_ok_sound (lookup : String → LookupResult) (db_dir : String) :
    ∀ (fs : List String) {remaining : List String} {ms : List (String × String)},
      remaining.Nodup →
      get_mirrors_go lookup db_dir fs remaining = PyResult.ok ms →
      (pairNames ms).Nodup ∧
      ∀ p ∈ ms, ∃ f m,
        p = (db_dir ++ "/table:" ++ f, db_dir ++ "/table:" ++ m) ∧
        f ∈ remaining ∧ m ∈ remaining ∧ f ≠ m ∧
        get_mirror_file lookup ("table:" ++ f) = PyResult.ok (some m) := by
  intro fs
  induction fs with
  | nil =>
    intro remaining ms hnd h
    simp only [get_mirrors_go, PyResult.ok.injEq] at h
    subst h
    simp [pairNames]
  | cons filename rest ih =>
    intro remaining ms hnd h
    simp only [get_mirrors_go] at h
    by_cases hmem : filename ∈ remaining
    · rw [if_pos hmem] at h
      split at h
      · exact absurd h (by simp)
      · obtain ⟨h1, h2⟩ := ih (nodup_removeStr hnd) h
        refine ⟨h1, fun p hp => ?_⟩
        obtain ⟨f, m, hpe, hf, hm, hfm, hres⟩ := h2 p hp
        exact ⟨f, m, hpe, mem_of_mem_removeStr hf, mem_of_mem_removeStr hm, hfm, hres⟩
      · rename_i mirror heq
        split at h
        · rename_i hc
          split at h
          · rename_i ms' heq2
            simp only [PyResult.ok.injEq] at h
            subst h
            have hnd1 : (removeStr filename remaining).Nodup := nodup_removeStr hnd
            obtain ⟨hnd', hmem'⟩ := ih (nodup_removeStr hnd1) heq2
            have hmr : mirror ∈ remaining := mem_of_mem_removeStr hc.2
            have hmf : mirror ≠ filename := ((mem_removeStr_iff hnd).mp hc.2).2
            have hrem2 : ∀ n : String,
                n ∈ removeStr mirror (removeStr filename remaining) →
                n ∈ remaining ∧ n ≠ filename ∧ n ≠ mirror := by
              intro n hn
              obtain ⟨hn1, hn2⟩ := (mem_removeStr_iff hnd1).mp hn
              obtain ⟨hn3, hn4⟩ := (mem_removeStr_iff hnd).mp hn1
              exact ⟨hn3, hn4, hn2⟩
            have hnames : ∀ x ∈ pairNames ms', ∃ n,
                x = db_dir ++ "/table:" ++ n ∧
                n ∈ remaining ∧ n ≠ filename ∧ n ≠ mirror := by
              intro x hx
              obtain ⟨p, hp, hcase⟩ := mem_pairNames.mp hx
              obtain ⟨f, m, hpe, hf, hm, _, _⟩ := hmem' p hp
              rcases hcase with hc1 | hc2
              · exact ⟨f, by rw [hc1, hpe], hrem2 f hf⟩
              · exact ⟨m, by rw [hc2, hpe], hrem2 m hm⟩
            constructor
            · simp only [pairNames]
              refine List.nodup_cons.mpr ⟨?_, List.nodup_cons.mpr ⟨?_, hnd'⟩⟩
              · intro hin
                rcases List.mem_cons.mp hin with he | hin2
                · exact hmf (uri_inj he).symm
                · obtain ⟨n, hxn, _, hnf, _⟩ := hnames _ hin2
                  exact hnf (uri_inj hxn).symm
              · intro hin2
                obtain ⟨n, hxn, _, _, hnm⟩ := hnames _ hin2
                exact hnm (uri_inj hxn).symm
            · intro p hp
              rcases List.mem_cons.mp hp with hph | hpt
              · exact ⟨filename, mirror, hph, hmem, hmr, fun he => hmf he.symm, heq⟩
              · obtain ⟨f, m, hpe, hf, hm, hfm, hres⟩ := hmem' p hpt
                exact ⟨f, m, hpe, (hrem2 f hf).1, (hrem2 m hm).1, hfm, hres⟩
          · exact absurd h (by simp)
        · obtain ⟨h1, h2⟩ := ih (nodup_removeStr hnd) h
          refine ⟨h1, fun p hp => ?_⟩
          obtain ⟨f, m, hpe, hf, hm, hfm, hres⟩ := h2 p hp
          exact ⟨f, m, hpe, mem_of_mem_removeStr hf, mem_of_mem_removeStr hm, hfm, hres⟩
    · rw [if_neg hmem] at h
      exact ih hnd h

lemma validate_events (ce : String × String → Option Nat) :
    ∀ ms : List (String × String), ∀ e ∈ (validate ce ms).1,
      isCompareEv e = true ∨ ∃ s, e = Ev.print s := by
  intro ms
  induction ms with
  | nil => intro e he; simp [validate] at he
  | cons item rest ih =>
    intro e he
    simp only [validate] at he
    split at he
    · split at he
      · rcases List.mem_cons.mp he with h | h
        · subst h; exact Or.inl rfl
        · rcases List.mem_cons.mp h with h2 | h2
          · subst h2; exact Or.inr ⟨_, rfl⟩
          · exact ih e h2
      · rcases List.mem_cons.mp he with h | h
        · subst h; exact Or.inl rfl
        · exact ih e h
    · rcases List.mem_cons.mp he with h | h
      · subst h; exact Or.inl rfl
      · exact ih e h

lemma gwdf_ok_events (sb : ScanBehavior) (evs : List Ev) (files : List String)
    (h : get_wiredtiger_db_files sb = (evs, PyResult.ok files)) :
    evs = [Ev.openSession, Ev.openCursor, Ev.closeCursor, Ev.closeSession] := by
  unfold get_wiredtiger_db_files at h
  rcases hs : sb.searchNearExn with _ | e
  · rw [hs] at h
    rcases hl : scanLoop sb.steps [] with fs | e
    · rw [hl] at h
      exact (Prod.mk.injEq _ _ _ _ ▸ h).1.symm ▸ rfl
    · rw [hl] at h
      simp at h
  · rw [hs] at h
    simp at h

lemma gm_ok_events (lookup : String → LookupResult) (db_dir : String)
    (db_files : List String) (evs : List Ev) (ms : List (String × String))
    (h : get_mirrors lookup db_dir db_files = (evs, PyResult.ok ms)) :
    evs = [Ev.openSession, Ev.openCursor, Ev.closeCursor, Ev.closeSession] := by
  unfold get_mirrors at h
  rcases hl : get_mirrors_go lookup db_dir db_files (dedupStr db_files) with ms' | e
  · rw [hl] at h
    exact (Prod.mk.injEq _ _ _ _ ▸ h).1.symm ▸ rfl
  · rw [hl] at h
    simp at h

lemma get_mirrors_ok {lookup : String → LookupResult} {db_dir : String}
    {db_files : List String} {ms : List (String × String)}
    (h : (get_mirrors lookup db_dir db_files).2 = PyResult.ok ms) :
    get_mirrors_go lookup db_dir db_files (dedupStr db_files) = PyResult.ok ms := by
  unfold get_mirrors at h
  rcases hl : get_mirrors_go lookup db_dir db_files (dedupStr db_files) with ms' | e
  · rw [hl] at h
    simp only at h
    exact h
  · rw [hl] at h
    simp at h

lemma parseDictList_eq_none {es : List String} (h : ∃ e ∈ es, splitKV e = none) :
    parseDictList es = none := by
  induction es with
  | nil => simp at h
  | cons e rest ih =>
    obtain ⟨x, hx, hxn⟩ := h
    rcases List.mem_cons.mp hx with h1 | h1
    · subst h1
      simp only [parseDictList, hxn]
    · simp only [parseDictList, ih ⟨x, h1, hxn⟩]
      cases splitKV e <;> rfl

lemma countP_append (p : Ev → Bool) (l1 l2 : List Ev) :
    countP p (l1 ++ l2) = countP p l1 + countP p l2 := by
  induction l1 with
  | nil => simp [countP]
  | cons e rest ih => simp [countP, ih, Nat.add_assoc]

lemma countP_eq_zero {p : Ev → Bool} :
    ∀ {l : List Ev}, (∀ e ∈ l, p e = false) → countP p l = 0 := by
  intro l
  induction l with
  | nil => intro _; rfl
  | cons e rest ih =>
    intro h
    simp [countP, h e (List.mem_cons_self _ _),
      ih fun x hx => h x (List.mem_cons_of_mem _ hx)]

lemma validate_not_scan (ce : String × String → Option Nat)
    (ms : List (String × String)) :
    ∀ e ∈ (validate ce ms).1,
      isScanEv e = false ∧ isOpenConnEv e = false ∧ isCloseConnEv e = false := by
  intro e he
  rcases validate_events ce ms e he with h | ⟨s, hs⟩
  · cases e <;> simp_all [isCompareEv, isScanEv, isOpenConnEv, isCloseConnEv]
  · subst hs
    simp [isScanEv, isOpenConnEv, isCloseConnEv]

/-- Shape of a completed run of main: the connection opens first, the two
scan phases run their four session and cursor events each, the connection
closes, then the validation events run and the summary line is printed
last; the exit status is 1 exactly when the failure count is positive. -/
lemma pymain_trace (b : DbBehavior) (db_dir : String) (db_files : List String)
    (ms : List (String × String)) (evs1 evs2 : List Ev)
    (hf : get_wiredtiger_db_files b.scan = (evs1, PyResult.ok db_files))
    (hm : get_mirrors b.lookup db_dir db_files = (evs2, PyResult.ok ms)) :
    (pymain b [db_dir]).1 =
      Ev.openConn db_dir :: Ev.openSession :: Ev.openCursor :: Ev.closeCursor ::
      Ev.closeSession :: Ev.openSession :: Ev.openCursor :: Ev.closeCursor ::
      Ev.closeSession :: Ev.closeConn ::
      ((validate b.compareExit ms).1 ++
        [Ev.print (if (validate b.compareExit ms).2 = 0
          then successLine ms.length db_dir
          else failLine (validate b.compareExit ms).2 ms.length db_dir)]) ∧
    (pymain b [db_dir]).2 =
      Outcome.exited (if (validate b.compareExit ms).2 > 0 then 1 else 0) := by
  have hevs1 := gwdf_ok_events _ _ _ hf
  have hevs2 := gm_ok_events _ _ _ _ _ hm
  subst hevs1
  subst hevs2
  constructor <;> simp [pymain, hf, hm]

/-- Claim C1, counterexample: an application-metadata string whose quoted
substring is the malformed element foo (no equals sign) makes
get_mirror_file raise a ValueError that escapes the component, instead of
returning no mirror, so malformed metadata is not treated like absent
metadata. -/
theorem c1_cex :
    get_mirror_file badMetaLookup "table:x" = PyResult.exn "ValueError" ∧
    get_mirror_file badMetaLookup "table:x" ≠ PyResult.ok none := by
  exact ⟨by decide, by decide⟩

/-- Claim C1, amended: whenever the quoted app_metadata substring contains
an element that does not split on the equals sign into exactly two fields
(no equals sign, or more than one), get_mirror_file raises ValueError out
of the component; absent keys and metadata without the app_metadata
pattern still yield no mirror, but malformed metadata does not. -/
theorem c1_thm (lookup : String → LookupResult) (fn v s : String)
    (h1 : lookup fn = LookupResult.found v)
    (h2 : extractAppMetadata v = some s)
    (h3 : ∃ e ∈ pySplit s ',', splitKV e = none) :
    get_mirror_file lookup fn = PyResult.exn "ValueError" := by
  simp [get_mirror_file, h1, h2, parseDictList_eq_none h3]

/-- Claim C1, witness: the amended theorem applied to the concrete
malformed metadata element foo. -/
theorem c1_wit :
    get_mirror_file badMetaLookup "table:x" = PyResult.exn "ValueError" :=
  c1_thm badMetaLookup "table:x"
    (String.mk ("app_metadata=".data ++ [dquote] ++ "foo".data ++ [dquote]))
    "foo" rfl (by decide) ⟨"foo", by decide, by decide⟩

/-- Claim C2, counterexample: table t has metadata id=5, which lacks both
workgen_dynamic_table=true and workgen_table_mirror, so its resolver
result is no mirror; yet t appears as the mirror side of the emitted pair
because the collector only consults the metadata of the base side. -/
theorem c2_cex :
    get_mirror_file sampleLookup "table:t" = PyResult.ok none ∧
    (get_mirrors sampleLookup "/db" ["s", "t"]).2 =
      PyResult.ok [("/db/table:s", "/db/table:t")] := by
  exact ⟨by decide, by decide⟩

/-- Claim C2, amended: a table whose own metadata does not resolve to a
mirror (it lacks workgen_dynamic_table=true or lacks workgen_table_mirror)
never appears as the base side of an emitted pair; it can still appear as
the mirror side when another table names it. -/
theorem c2_thm (lookup : String → LookupResult) (db_dir T : String)
    (db_files : List String) (ms : List (String × String))
    (h : (get_mirrors lookup db_dir db_files).2 = PyResult.ok ms)
    (hT : get_mirror_file lookup ("table:" ++ T) = PyResult.ok none) :
    ∀ p ∈ ms, p.1 ≠ db_dir ++ "/table:" ++ T := by
  intro p hp he
  obtain ⟨_, h2⟩ :=
    go_ok_sound lookup db_dir db_files nodup_dedupStr (get_mirrors_ok h)
  obtain ⟨f, m, hpe, _, _, _, hres⟩ := h2 p hp
  rw [hpe] at he
  rw [uri_inj he] at hres
  exact absurd (hT.symm.trans hres) (by simp)

/-- Claim C2, witness: in the sample run the emitted pair has base side s,
not the metadata-less table t. -/
theorem c2_wit :
    ("/db/table:s", "/db/table:t").1 ≠ "/db" ++ "/table:" ++ "t" :=
  c2_thm sampleLookup "/db" "t" ["s", "t"] [("/db/table:s", "/db/table:t")]
    (by decide) (by decide) ("/db/table:s", "/db/table:t") (by decide)

/-- Claim C3: for every input table list and every metadata cursor, in a
successfully collected pair list the flattened list of sides has no
duplicates, so no table appears in more than one emitted pair in either
position, and no emitted pair has both sides equal. -/
theorem c3_thm (lookup : String → LookupResult) (db_dir : String)
    (db_files : List String) (ms : List (String × String))
    (h : (get_mirrors lookup db_dir db_files).2 = PyResult.ok ms) :
    (pairNames ms).Nodup ∧ ∀ p ∈ ms, p.1 ≠ p.2 := by
  obtain ⟨h1, h2⟩ :=
    go_ok_sound lookup db_dir db_files nodup_dedupStr (get_mirrors_ok h)
  refine ⟨h1, fun p hp he => ?_⟩
  obtain ⟨f, m, hpe, _, _, hfm, _⟩ := h2 p hp
  rw [hpe] at he
  exact hfm (uri_inj he)

/-- Claim C3, witness: the exclusivity invariant evaluated on the sample
run with one emitted pair. -/
theorem c3_wit : (pairNames [("/db/table:s", "/db/table:t")]).Nodup :=
  (c3_thm sampleLookup "/db" ["s", "t"] [("/db/table:s", "/db/table:t")]
    (by decide)).1

/-- Claim C4: when the resolved mirror of the current entry is no longer
in the remaining set, the loop emits nothing for that entry and continues
with the rest of the entries against the remaining set without the entry.
-/
theorem c4_thm (lookup : String → LookupResult) (db_dir filename m : String)
    (rest remaining : List String)
    (h1 : filename ∈ remaining)
    (h2 : get_mirror_file lookup ("table:" ++ filename) = PyResult.ok (some m))
    (h3 : m ∉ removeStr filename remaining) :
    get_mirrors_go lookup db_dir (filename :: rest) remaining =
      get_mirrors_go lookup db_dir rest (removeStr filename remaining) := by
  simp [get_mirrors_go, h1, h2, h3]

/-- Claim C4, witness: a catalog with one base whose mirror was dropped
emits nothing for that entry, yields zero pairs and exits with status 0.
-/
theorem c4_wit :
    get_mirrors_go orphanLookup "/db" ["orders"] ["orders"] =
      get_mirrors_go orphanLookup "/db" [] (removeStr "orders" ["orders"]) ∧
    (get_mirrors orphanLookup "/db" ["orders"]).2 = PyResult.ok [] ∧
    (pymain orphanB ["/db"]).2 = Outcome.exited 0 := by
  refine ⟨c4_thm orphanLookup "/db" "orders" "orders_mirror" [] ["orders"]
    (by decide) (by decide) (by decide), by decide, by decide⟩

/-- Claim C5: in every run that completes validation, a zero failure
count prints the success summary naming the pair count and the directory
and exits with status 0, and a positive failure count prints the failure
summary naming the failure count, the pair count and the directory and
exits with status 1. -/
theorem c5_thm (b : DbBehavior) (db_dir : String) (db_files : List String)
    (ms : List (String × String)) (evs1 evs2 : List Ev)
    (hf : get_wiredtiger_db_files b.scan = (evs1, PyResult.ok db_files))
    (hm : get_mirrors b.lookup db_dir db_files = (evs2, PyResult.ok ms)) :
    ((validate b.compareExit ms).2 = 0 →
      Ev.print (successLine ms.length db_dir) ∈ (pymain b [db_dir]).1 ∧
      (pymain b [db_dir]).2 = Outcome.exited 0) ∧
    ((validate b.compareExit ms).2 ≠ 0 →
      Ev.print (failLine (validate b.compareExit ms).2 ms.length db_dir) ∈
        (pymain b [db_dir]).1 ∧
      (pymain b [db_dir]).2 = Outcome.exited 1) := by
  obtain ⟨htr, hout⟩ := pymain_trace b db_dir db_files ms evs1 evs2 hf hm
  constructor
  · intro hz
    constructor
    · rw [htr]
      simp [hz]
    · rw [hout]
      simp [hz]
  · intro hnz
    constructor
    · rw [htr]
      simp [hnz]
    · rw [hout]
      simp [Nat.pos_of_ne_zero hnz]

/-- Claim C5, witness: the sample run has one matching pair, prints the
success summary for one pair and exits 0. -/
theorem c5_wit :
    Ev.print (successLine 1 "/db") ∈ (pymain sampleB ["/db"]).1 ∧
    (pymain sampleB ["/db"]).2 = Outcome.exited 0 :=
  (c5_thm sampleB "/db" ["s", "t"] [("/db/table:s", "/db/table:t")]
    [Ev.openSession, Ev.openCursor, Ev.closeCursor, Ev.closeSession]
    [Ev.openSession, Ev.openCursor, Ev.closeCursor, Ev.closeSession]
    (by decide) (by decide)).1 (by decide)

/-- Claim C6, counterexample: in the sample run the connection is opened
once and closed once, but a comparison event occurs after the connection
close, so the close does not happen after all per-pair validation work as
the claim states: the source closes the connection before the comparison
loop. -/
theorem c6_cex :
    countP isOpenConnEv (pymain sampleB ["/db"]).1 = 1 ∧
    countP isCloseConnEv (pymain sampleB ["/db"]).1 = 1 ∧
    ((afterCloseConn (pymain sampleB ["/db"]).1).all
      fun e => !(isCompareEv e)) = false := by
  exact ⟨by decide, by decide, by decide⟩

/-- Claim C6, amended: in every run that completes scanning and
collection, the connection is opened exactly once and closed exactly
once; the close comes after all scanning work (no session or cursor event
after it) and before all per-pair comparison work (no comparison event
before it), and it is not conditioned on validation success. -/
theorem c6_thm (b : DbBehavior) (db_dir : String) (db_files : List String)
    (ms : List (String × String)) (evs1 evs2 : List Ev)
    (hf : get_wiredtiger_db_files b.scan = (evs1, PyResult.ok db_files))
    (hm : get_mirrors b.lookup db_dir db_files = (evs2, PyResult.ok ms)) :
    countP isOpenConnEv (pymain b [db_dir]).1 = 1 ∧
    countP isCloseConnEv (pymain b [db_dir]).1 = 1 ∧
    ((beforeCloseConn (pymain b [db_dir]).1).all
      fun e => !(isCompareEv e)) = true ∧
    ((afterCloseConn (pymain b [db_dir]).1).all
      fun e => !(isScanEv e)) = true := by
  obtain ⟨htr, _⟩ := pymain_trace b db_dir db_files ms evs1 evs2 hf hm
  rw [htr]
  have hv1 : countP isOpenConnEv (validate b.compareExit ms).1 = 0 :=
    countP_eq_zero fun e he => (validate_not_scan _ _ e he).2.1
  have hv2 : countP isCloseConnEv (validate b.compareExit ms).1 = 0 :=
    countP_eq_zero fun e he => (validate_not_scan _ _ e he).2.2
  have hv3 : ((validate b.compareExit ms).1.all fun e => !(isScanEv e)) = true := by
    rw [List.all_eq_true]
    intro e he
    simp [(validate_not_scan _ _ e he).1]
  refine ⟨?_, ?_, ?_, ?_⟩
  · simp [countP, countP_append, isOpenConnEv, hv1]
  · simp [countP, countP_append, isCloseConnEv, hv2]
  · simp [beforeCloseConn, isCompareEv]
  · simp only [afterCloseConn, List.all_append, Bool.and_eq_true]
    exact ⟨hv3, rfl⟩

/-- Claim C6, witness: the amended connection discipline evaluated on the
sample run. -/
theorem c6_wit :
    countP isOpenConnEv (pymain sampleB ["/db"]).1 = 1 ∧
    countP isCloseConnEv (pymain sampleB ["/db"]).1 = 1 ∧
    ((beforeCloseConn (pymain sampleB ["/db"]).1).all
      fun e => !(isCompareEv e)) = true ∧
    ((afterCloseConn (pymain sampleB ["/db"]).1).all
      fun e => !(isScanEv e)) = true :=
  c6_thm sampleB "/db" ["s", "t"] [("/db/table:s", "/db/table:t")]
    [Ev.openSession, Ev.openCursor, Ev.closeCursor, Ev.closeSession]
    [Ev.openSession, Ev.openCursor, Ev.closeCursor, Ev.closeSession]
    (by decide) (by decide)

/-- Claim C7: with an argument count different from one, main prints the
two usage lines, exits with status 1, and opens no connection at all, so
no scanning occurs. -/
theorem c7_thm (b : DbBehavior) (args : List String) (h : args.length ≠ 1) :
    pymain b args = ([Ev.print usageLine1, Ev.print usageLine2], Outcome.exited 1) ∧
    ∀ d, Ev.openConn d ∉ (pymain b args).1 := by
  have hu : pymain b args = usage_exit := by
    rcases args with _ | ⟨a, _ | ⟨a2, rest⟩⟩
    · rfl
    · exact absurd rfl h
    · rfl
  rw [hu]
  exact ⟨rfl, fun d => by simp [usage_exit]⟩

/-- Claim C7, witness: two positional arguments print the usage message
and exit 1. -/
theorem c7_wit :
    pymain sampleB ["a", "b"] =
      ([Ev.print usageLine1, Ev.print usageLine2], Outcome.exited 1) :=
  (c7_thm sampleB ["a", "b"] (by decide)).1

/-- Claim C8, counterexample: when the metadata iteration raises, the
scanner exits by exception with the session and the cursor both still
open, so the pair is not released on every exit path as the claim states:
the source has no cleanup handler around positioning and iteration. -/
theorem c8_cex :
    (get_wiredtiger_db_files raisingScan).2 = PyResult.exn "WiredTigerError" ∧
    Ev.closeCursor ∉ (get_wiredtiger_db_files raisingScan).1 ∧
    Ev.closeSession ∉ (get_wiredtiger_db_files raisingScan).1 := by
  exact ⟨by decide, by decide, by decide⟩

/-- Claim C8, amended: the scanner opens exactly one session and one
cursor in every run; on the normal return path it closes both, and it
exits by exception precisely when its trace stops after the two opens,
leaving both unreleased. -/
theorem c8_thm (sb : ScanBehavior) :
    countP isOpenSessionEv (get_wiredtiger_db_files sb).1 = 1 ∧
    countP isOpenCursorEv (get_wiredtiger_db_files sb).1 = 1 ∧
    ((get_wiredtiger_db_files sb).1 =
        [Ev.openSession, Ev.openCursor, Ev.closeCursor, Ev.closeSession] ∨
      (get_wiredtiger_db_files sb).1 = [Ev.openSession, Ev.openCursor]) ∧
    ((∃ e, (get_wiredtiger_db_files sb).2 = PyResult.exn e) ↔
      (get_wiredtiger_db_files sb).1 = [Ev.openSession, Ev.openCursor]) := by
  unfold get_wiredtiger_db_files
  rcases hs : sb.searchNearExn with _ | e
  · rcases hl : scanLoop sb.steps [] with fs | e
    · simp [countP, isOpenSessionEv, isOpenCursorEv]
    · simp [countP, isOpenSessionEv, isOpenCursorEv]
  · simp [countP, isOpenSessionEv, isOpenCursorEv]

/-- Claim C9: whatever diagnostic text the comparison utility emits for
the mismatched pair, the script produces the same trace, whose per-pair
report line is the mismatchLine ending in None: the diagnostic goes to
os.devnull under redirect_stdout, and the local variable holding the
would-be output is never assigned because SystemExit propagates out of
the call, so the diagnostic never reaches the final report. -/
theorem c9_thm (d : String × String → String) :
    (pymain (diagB d) ["/db"]).1 =
      [Ev.openConn "/db", Ev.openSession, Ev.openCursor, Ev.closeCursor,
       Ev.closeSession, Ev.openSession, Ev.openCursor, Ev.closeCursor,
       Ev.closeSession, Ev.closeConn,
       Ev.compare ("/db/table:s", "/db/table:t"),
       Ev.print (mismatchLine ("/db/table:s", "/db/table:t")),
       Ev.print (failLine 1 1 "/db")] ∧
    (pymain (diagB d) ["/db"]).2 = Outcome.exited 1 := by
  exact ⟨rfl, rfl⟩

/-- Claim C10: when the cursor lookup raises an Exception whose class
name is not KeyError, get_mirror_file neither propagates it nor returns
no mirror: the except block swallows it and the use of the unassigned
local raises UnboundLocalError. -/
theorem c10_thm (lookup : String → LookupResult) (fn e : String)
    (h1 : lookup fn = LookupResult.raised e) (h2 : e ≠ "KeyError") :
    get_mirror_file lookup fn = PyResult.exn "UnboundLocalError" := by
  simp [get_mirror_file, h1, h2]

/-- Claim C10, witness: a raised WiredTigerError turns into
UnboundLocalError. -/
theorem c10_wit :
    get_mirror_file (fun _ => LookupResult.raised "WiredTigerError") "table:x" =
      PyResult.exn "UnboundLocalError" :=
  c10_thm (fun _ => LookupResult.raised "WiredTigerError") "table:x"
    "WiredTigerError" rfl (by decide)

